import Mathlib

/-!
Verification of the WisianCorp Generation Session Engine.

Shallow embedding of `src/constants.ts` and the stateful core of
`src/index.tsx` (the `App` component's generation controller, credential
gate and history vault).  Pure TypeScript values become Lean values;
the `handleGenerate` event handler becomes a pure function from an
environment (external inputs: `process.env.API_KEY`, `window.aistudio`,
the streamed chunks, any thrown fault, and whether a re-authentication
`openSelectKey()` call would itself reject) and the pre-state of the
React component to a result bundling the post-state together with the
traces of the `setOutput` / `setApiStatus` / `setHasAccess` calls it
performed, whether a generation request was issued, whether the
key-selection dialog was opened, and any rejection that escaped the
handler uncaught (the `await openSelectKey()` inside the catch block has
no inner try/catch, so its rejection skips the rest of the catch body).
-/

set_option maxRecDepth 40000

namespace Wisian

/-- JS string truthiness/containment/trim helpers, modelling the exact
JavaScript primitives the source uses (`||` on strings, `String.prototype.includes`,
`String.prototype.trim`). -/
def startsWithL : List Char → List Char → Bool
  | [], _ => true
  | _ :: _, [] => false
  | p :: ps, c :: cs => p == c && startsWithL ps cs

/-- `containsSub pat l` models JavaScript `l.includes(pat)`. -/
def containsSub (pat : List Char) : List Char → Bool
  | [] => startsWithL pat []
  | c :: rest => startsWithL pat (c :: rest) || containsSub pat rest

/-- Models `s.includes(pat)` from JavaScript. -/
def jsIncludes (s pat : String) : Bool :=
  containsSub pat.data s.data

def trimStartL (l : List Char) : List Char := l.dropWhile Char.isWhitespace

def trimEndL (l : List Char) : List Char := (l.reverse.dropWhile Char.isWhitespace).reverse

/-- Models `s.trim()` from JavaScript (on the whitespace characters that
actually occur in this program: space and newline). -/
def jsTrim (s : String) : String := String.mk (trimEndL (trimStartL s.data))

/-! ## src/constants.ts -/

structure Category where
  id : String
  name : String
  icon : String
deriving DecidableEq

def TOOL_CATEGORIES : List Category :=
  [ ⟨"leadership", "Executive", "fa-building"⟩,
    ⟨"teacher", "Educators", "fa-chalkboard-user"⟩,
    ⟨"admin", "Operations", "fa-briefcase"⟩,
    ⟨"learner", "Development", "fa-graduation-cap"⟩ ]

inductive ModelTier where
  | flash
  | pro
deriving DecidableEq

structure ToolConfig where
  id : String
  categoryId : String
  name : String
  basePrompt : String
  examplePrompt : String
  description : String
  modelTier : ModelTier
deriving DecidableEq

def strategyToolkit : ToolConfig :=
  { id := "strategy-toolkit"
    categoryId := "leadership"
    name := "Strategic Roadmap"
    description := "Corporate-grade strategic planning and change management frameworks."
    basePrompt := "Draft a high-level strategic roadmap or executive memo. Treat the Principal as a CEO. Use corporate management frameworks (SWOT, OKRs) applied to education."
    examplePrompt := "Scenario: transitioning a traditional school to a digital-first curriculum over 24 months with limited budget."
    modelTier := .pro }

def sgbGovernance : ToolConfig :=
  { id := "sgb-governance"
    categoryId := "leadership"
    name := "Governance & Compliance"
    description := "Legally sound policy drafting for Governing Bodies."
    basePrompt := "Draft a formal governance policy or resolution. Ensure strict adherence to South African legal frameworks and corporate governance best practices."
    examplePrompt := "Draft a Conflict of Interest policy for the School Governing Body members."
    modelTier := .pro }

def lessonPlan : ToolConfig :=
  { id := "lesson-plan"
    categoryId := "teacher"
    name := "Curriculum Architect"
    description := "High-fidelity, CAPS-aligned instructional design."
    basePrompt := "Design a comprehensive, high-fidelity lesson plan. Focus on innovative pedagogy, differentiation strategies, and measurable outcomes."
    examplePrompt := "Grade 11 Physical Sciences: Intermolecular Forces. 60-minute active learning session."
    modelTier := .pro }

def assessmentGen : ToolConfig :=
  { id := "assessment-gen"
    categoryId := "teacher"
    name := "Assessment Engine"
    description := "Bloom's Taxonomy aligned testing instruments."
    basePrompt := "Create a formal assessment instrument with a marking matrix and cognitive level analysis (Bloom's)."
    examplePrompt := "Grade 10 Business Studies: Creative Thinking and Problem Solving. Case study based assessment."
    modelTier := .flash }

def parentComms : ToolConfig :=
  { id := "parent-comms"
    categoryId := "admin"
    name := "Stakeholder Comms"
    description := "Professional crisis and routine communication generator."
    basePrompt := "Draft a professional stakeholder communication. Tone should be reassuring, clear, and authoritative yet empathetic."
    examplePrompt := "Urgent notice regarding a change in exam timetables due to unforeseen circumstances."
    modelTier := .flash }

def fundraisingPro : ToolConfig :=
  { id := "fundraising-pro"
    categoryId := "admin"
    name := "Capital Raising"
    description := "Corporate sponsorship proposals and grant applications."
    basePrompt := "Write a persuasive corporate sponsorship proposal. Focus on CSI (Corporate Social Investment) benefits and tangible ROI for the sponsor."
    examplePrompt := "Proposal to a telecommunications company to sponsor fibre internet installation."
    modelTier := .pro }

def studyGuide : ToolConfig :=
  { id := "study-guide"
    categoryId := "learner"
    name := "Knowledge Synthesizer"
    description := "Rapid revision summaries and concept maps."
    basePrompt := "Synthesize complex curriculum topics into high-impact \"Cheat Sheets\" or summaries. Use mnemonics and clear structure."
    examplePrompt := "Grade 12 History: The collapse of the USSR. Key timeline and causes."
    modelTier := .flash }

def TOOLS_CONFIG : List ToolConfig :=
  [ strategyToolkit, sgbGovernance, lessonPlan, assessmentGen,
    parentComms, fundraisingPro, studyGuide ]

/-! ## Prompt composition (src/index.tsx, handleGenerate lines 120-138) -/

/-- The `modelName` selection (index.tsx lines 136-138). -/
def modelNameFor (t : ToolConfig) : String :=
  if t.modelTier = .pro then "gemini-3-pro-preview" else "gemini-3-flash-preview"

/-- `promptInput || 'Standard operating procedure.'` — JavaScript `||`
falls through exactly when the left operand is the empty string. -/
def orDefaultCtx (ctx : String) : String :=
  if ctx = "" then "Standard operating procedure." else ctx

/-- The `userPrompt` template literal (index.tsx lines 130-134), including
its final `.trim()`. -/
def userPrompt (t : ToolConfig) (ctx : String) : String :=
  jsTrim ("\n        **Directive:** Execute the following task using the "
    ++ t.name
    ++ " module.\n        **Context:** "
    ++ orDefaultCtx ctx
    ++ "\n        **Core Task:** "
    ++ t.basePrompt
    ++ "\n      ")

/-- The `systemInstruction` template literal (index.tsx lines 121-128). -/
def systemInstructionStr : String :=
  jsTrim ("\n        You are Wisian, the proprietary AI engine of Wisian Corporation.\n        Your mission is to democratize high-tier corporate intelligence for the South African education sector.\n        Guidelines:\n        - Output MUST be structured, professional, and authoritative.\n        - Use South African English spelling and terminology.\n        - Format as a high-end consultancy deliverable.\n      ")

/-! ## Fixed user-visible messages (index.tsx lines 106, 176, 177) -/

def accessDeniedMsg : String :=
  "### Access Denied\nWisian Corporation Protocol: Please authenticate to access the intelligence engine."

def authFailedMsg : String :=
  "### Authentication Failed\nSecurity Protocol: API Key invalid or missing. Please reconnect."

def networkInterruptionMsg : String :=
  "### Network Interruption\nThe Wisian Link is experiencing latency. Retrying connection..."

/-! ## Controller state (the React state of `App`, index.tsx lines 26-35) -/

inductive ApiStatus where
  | online
  | error
  | idle
deriving DecidableEq

/-- A persisted history entry (`SavedResource`, index.tsx lines 10-16). -/
structure SavedResource where
  id : String
  toolName : String
  categoryName : String
  content : String
  timestamp : Nat
deriving DecidableEq

/-- The component state that `handleGenerate` reads and writes. -/
structure AppState where
  activeCategory : String
  selectedTool : ToolConfig
  promptInput : String
  isGenerating : Bool
  output : String
  savedResources : List SavedResource
  apiStatus : ApiStatus
  hasAccess : Bool
deriving DecidableEq

/-- External inputs of one `handleGenerate` invocation: the environment
key, presence of the `window.aistudio` capability, the chunk texts the
streaming call delivers before closing, an optional fault thrown after
those chunks (covering faults at issuance, with `chunks = []`, and
mid-stream transport faults), the behaviour of a re-authentication
`window.aistudio.openSelectKey()` call should one be made (`none`: it
returns normally; `some e`: it rejects with error text `e`), and the
`Date.now()` clock value. -/
structure GenEnv where
  apiKey : Option String
  aistudioAvailable : Bool
  chunks : List String
  fault : Option String
  openKeyFault : Option String
  now : Nat

/-- JavaScript truthiness of `process.env.API_KEY` (`undefined` and the
empty string are falsy). -/
def envKeyTruthy (env : GenEnv) : Bool :=
  match env.apiKey with
  | none => false
  | some s => s ≠ ""

/-- The payload handed to `ai.models.generateContentStream`
(index.tsx lines 140-147); the fixed temperature 0.6 is a float literal
and carries no claim, so it is not modelled. -/
structure GenRequest where
  model : String
  userText : String
  systemText : String
deriving DecidableEq

/-- Result of one `handleGenerate` invocation: the post-state plus the
observable traces (every `setOutput`, `setApiStatus`, `setHasAccess`
call in order), the issued request if any, whether
`window.aistudio.openSelectKey()` was invoked, and the rejection, if
any, that escaped the handler uncaught (the `finally` still runs, but
the remainder of the catch body is skipped). -/
structure GenResult where
  state : AppState
  publishes : List String
  statusUpdates : List ApiStatus
  accessUpdates : List Bool
  request : Option GenRequest
  openedKeyDialog : Bool
  uncaught : Option String
deriving DecidableEq

/-- The `for await` accumulation loop (index.tsx lines 149-153): returns
the final accumulator together with the list of values passed to
`setOutput`, one per chunk. -/
def streamLoop (chunks : List String) : String × List String :=
  chunks.foldl (fun p c => (p.1 ++ c, p.2 ++ [p.1 ++ c])) ("", [])

/-- `record` of the history vault: `[newResource, ...prev].slice(0, 15)`
(index.tsx line 162). -/
def record (e : SavedResource) (v : List SavedResource) : List SavedResource :=
  (e :: v).take 15

/-- The `handleGenerate` handler (index.tsx lines 102-182), as a pure
function of the environment and pre-state.  In the catch block, the
stale-credential branch awaits `window.aistudio.openSelectKey()` with no
inner try/catch: when that call rejects (`env.openKeyFault = some e`)
the rejection escapes the catch block, the optimistic restore and the
final `setOutput(msg)` are skipped, only the `finally` clears the
in-progress flag, and the error propagates uncaught — the last streamed
partial remains the published output. -/
def handleGenerate (env : GenEnv) (s : AppState) : GenResult :=
  if s.isGenerating then
    { state := s, publishes := [], statusUpdates := [], accessUpdates := [],
      request := none, openedKeyDialog := false, uncaught := none }
  else if !s.hasAccess && !envKeyTruthy env then
    { state := { s with output := accessDeniedMsg },
      publishes := [accessDeniedMsg], statusUpdates := [], accessUpdates := [],
      request := none, openedKeyDialog := false, uncaught := none }
  else
    let req : GenRequest :=
      { model := modelNameFor s.selectedTool,
        userText := userPrompt s.selectedTool s.promptInput,
        systemText := systemInstructionStr }
    let loop := streamLoop env.chunks
    match env.fault with
    | none =>
      let entry : SavedResource :=
        { id := toString env.now,
          toolName := s.selectedTool.name,
          categoryName :=
            ((TOOL_CATEGORIES.find? (fun c => c.id == s.activeCategory)).map Category.name).getD "",
          content := loop.1,
          timestamp := env.now }
      { state := { s with isGenerating := false, output := loop.1,
                          savedResources := record entry s.savedResources },
        publishes := "" :: loop.2,
        statusUpdates := [], accessUpdates := [],
        request := some req, openedKeyDialog := false, uncaught := none }
    | some m =>
      let msg := if jsIncludes m "API_KEY" then authFailedMsg else networkInterruptionMsg
      if jsIncludes m "Requested entity was not found" then
        if env.aistudioAvailable then
          match env.openKeyFault with
          | some e =>
            { state := { s with isGenerating := false, output := loop.1,
                                hasAccess := false, apiStatus := .error },
              publishes := "" :: loop.2,
              statusUpdates := [.error], accessUpdates := [false],
              request := some req, openedKeyDialog := true, uncaught := some e }
          | none =>
            { state := { s with isGenerating := false, output := msg,
                                hasAccess := true, apiStatus := .online },
              publishes := ("" :: loop.2) ++ [msg],
              statusUpdates := [.error, .online], accessUpdates := [false, true],
              request := some req, openedKeyDialog := true, uncaught := none }
        else
          { state := { s with isGenerating := false, output := msg,
                              hasAccess := false, apiStatus := .error },
            publishes := ("" :: loop.2) ++ [msg],
            statusUpdates := [.error], accessUpdates := [false],
            request := some req, openedKeyDialog := false, uncaught := none }
      else
        { state := { s with isGenerating := false, output := msg },
          publishes := ("" :: loop.2) ++ [msg],
          statusUpdates := [], accessUpdates := [],
          request := some req, openedKeyDialog := false, uncaught := none }

/-! ## Specification-side characterizations of the stream loop -/

/-- Concatenation of all increment texts, in arrival order. -/
def concatAll : List String → String
  | [] => ""
  | c :: cs => c ++ concatAll cs

/-- The successive values of the accumulator: the n-th element is the
concatenation of the first n+1 increments. -/
def runningOutputs : List String → List String
  | [] => []
  | c :: cs => c :: (runningOutputs cs).map (fun x => c ++ x)

theorem streamLoop_go (cs : List String) (a : String) (ps : List String) :
    cs.foldl (fun p c => (p.1 ++ c, p.2 ++ [p.1 ++ c])) (a, ps) =
      (a ++ concatAll cs, ps ++ (runningOutputs cs).map (fun x => a ++ x)) := by
  induction cs generalizing a ps with
  | nil => simp [concatAll, runningOutputs]
  | cons c cs ih =>
    have hfun : (fun x => a ++ c ++ x) = ((fun x => a ++ x) ∘ fun x => c ++ x) := by
      funext x
      simp [Function.comp, String.append_assoc]
    simp only [List.foldl_cons, concatAll, runningOutputs, ih, List.map_cons, List.map_map]
    refine Prod.ext ?_ ?_
    · simp [String.append_assoc]
    · simp [List.append_assoc, hfun]

theorem streamLoop_eq (cs : List String) :
    streamLoop cs = (concatAll cs, runningOutputs cs) := by
  have h := streamLoop_go cs "" []
  simpa [streamLoop, String.empty_append] using h

theorem runningOutputs_length (cs : List String) :
    (runningOutputs cs).length = cs.length := by
  induction cs with
  | nil => rfl
  | cons c cs ih => simp [runningOutputs, ih]

/-! ## History vault lifecycle (index.tsx lines 40-48, 72-74, 162, 241-246)

The durable snapshot under the `wisian_history` key is only ever written
by the save effect (line 73, the full JSON of the current vault) or
removed by `clearHistory`; an externally present initial snapshot either
fails to parse or, per the persistence contract, decodes to a vault the
program itself persisted (newest-first, at most 15 entries). -/

/-- Decoded content of the `wisian_history` localStorage key. -/
inductive Snapshot where
  | absent
  | corrupt
  | saved (entries : List SavedResource)

/-- The mount-time load (index.tsx lines 41-48): a missing key leaves
the initial empty vault, a parse failure is caught and leaves the
initial empty vault, a parsed snapshot becomes the vault. -/
def loadVault : Snapshot → List SavedResource
  | .absent => []
  | .corrupt => []
  | .saved l => l

/-- Vault plus its durable snapshot. -/
structure VaultSys where
  vault : List SavedResource
  stored : Snapshot

/-- Newest-first ordering: timestamps are non-increasing front to back. -/
def newestFirst (v : List SavedResource) : Prop :=
  List.Pairwise (fun a b => b.timestamp ≤ a.timestamp) v

/-- The three mutations of the vault/storage pair.  `record` carries the
monotone-clock premise (each new entry's `Date.now()` timestamp is at
least every stored timestamp); `purge` is `clearHistory` (line 241-246);
`restart` is a process restart running the mount load effect, after
which the save effect re-persists the loaded vault. -/
inductive VaultStep : VaultSys → VaultSys → Prop where
  | record (e : SavedResource) (s : VaultSys)
      (hclock : ∀ x ∈ s.vault, x.timestamp ≤ e.timestamp) :
      VaultStep s ⟨record e s.vault, .saved (record e s.vault)⟩
  | purge (s : VaultSys) : VaultStep s ⟨[], .saved []⟩
  | restart (s : VaultSys) : VaultStep s ⟨loadVault s.stored, .saved (loadVault s.stored)⟩

/-- Startup: empty in-memory vault; any pre-existing parsable snapshot
is one the program persisted (≤ 15 entries, newest first). -/
def VaultInit (s : VaultSys) : Prop :=
  s.vault = [] ∧ ∀ l, s.stored = .saved l → l.length ≤ 15 ∧ newestFirst l

def VaultInv (s : VaultSys) : Prop :=
  (s.vault.length ≤ 15 ∧ newestFirst s.vault) ∧
    ∀ l, s.stored = .saved l → l.length ≤ 15 ∧ newestFirst l

theorem record_length (e : SavedResource) (v : List SavedResource) :
    (record e v).length = min 15 (v.length + 1) := by
  simp only [record, List.length_take, List.length_cons]

theorem record_head (e : SavedResource) (v : List SavedResource) :
    (record e v).head? = some e := by
  show ((e :: v).take (14 + 1)).head? = some e
  rw [List.take_succ_cons]
  rfl

theorem record_newestFirst (e : SavedResource) (v : List SavedResource)
    (hv : newestFirst v) (hclock : ∀ x ∈ v, x.timestamp ≤ e.timestamp) :
    newestFirst (record e v) :=
  List.Pairwise.sublist (List.take_sublist _ _) (List.Pairwise.cons hclock hv)

theorem vaultStep_inv {s s' : VaultSys} (hs : VaultInv s) (h : VaultStep s s') :
    VaultInv s' := by
  cases h with
  | record e _ hclock =>
    have hlen : (record e s.vault).length ≤ 15 := by
      rw [record_length]
      exact min_le_left _ _
    have hnf : newestFirst (record e s.vault) :=
      record_newestFirst e s.vault hs.1.2 hclock
    exact ⟨⟨hlen, hnf⟩, fun l hl => by cases hl; exact ⟨hlen, hnf⟩⟩
  | purge =>
    exact ⟨⟨by simp, List.Pairwise.nil⟩, fun l hl => by
      cases hl
      exact ⟨by simp, List.Pairwise.nil⟩⟩
  | restart =>
    have hload : (loadVault s.stored).length ≤ 15 ∧ newestFirst (loadVault s.stored) := by
      cases hst : s.stored with
      | absent => exact ⟨by simp [loadVault], List.Pairwise.nil⟩
      | corrupt => exact ⟨by simp [loadVault], List.Pairwise.nil⟩
      | saved l => exact hs.2 l hst
    exact ⟨hload, fun l hl => by rw [show loadVault s.stored = l from by cases hl; rfl] at hload; exact hload⟩

theorem vaultReach_inv {s s' : VaultSys} (hinit : VaultInit s)
    (h : Relation.ReflTransGen VaultStep s s') : VaultInv s' := by
  induction h with
  | refl =>
    exact ⟨⟨by rw [hinit.1]; simp, by rw [hinit.1]; exact List.Pairwise.nil⟩, hinit.2⟩
  | tail _ hstep ih => exact vaultStep_inv ih hstep

/-! ## JSON parse model (the `JSON.parse` call of the load effect)

`jsonValid` models whether `JSON.parse` succeeds: a fuel-bounded
recursive-descent recognizer of the JSON grammar. -/

def jsonWsChar (c : Char) : Bool :=
  c == ' ' || c == '\t' || c == '\n' || c == '\r'

def skipWsL (l : List Char) : List Char := l.dropWhile jsonWsChar

def obChar : Char := Char.ofNat 123

def cbChar : Char := Char.ofNat 125

def isHexChar (c : Char) : Bool :=
  c.isDigit || ('a' ≤ c && c ≤ 'f') || ('A' ≤ c && c ≤ 'F')

/-- Remainder after a JSON string body (the opening quote already
consumed), or `none` on a malformed string. -/
def parseStrRest : List Char → Option (List Char)
  | [] => none
  | c :: rest =>
    if c = '\"' then some rest
    else if c = '\\' then
      match rest with
      | [] => none
      | e :: rest2 =>
        if e = '\"' || e = '\\' || e = '/' || e = 'b' || e = 'f' ||
            e = 'n' || e = 'r' || e = 't' then parseStrRest rest2
        else if e = 'u' then
          match rest2 with
          | h1 :: h2 :: h3 :: h4 :: rest3 =>
            if isHexChar h1 && isHexChar h2 && isHexChar h3 && isHexChar h4 then
              parseStrRest rest3
            else none
          | _ => none
        else none
    else if c.toNat < 32 then none
    else parseStrRest rest
termination_by l => l.length
decreasing_by all_goals simp_arith

def dropDigits (l : List Char) : List Char := l.dropWhile Char.isDigit

def parseExpPart : List Char → Option (List Char)
  | [] => some []
  | c :: rest =>
    if c = 'e' || c = 'E' then
      let r2 := match rest with
        | s :: r => if s = '+' || s = '-' then r else s :: r
        | [] => []
      match r2 with
      | d :: _ => if d.isDigit then some (dropDigits r2) else none
      | [] => none
    else some (c :: rest)

def parseFracPart : List Char → Option (List Char)
  | [] => some []
  | c :: rest =>
    if c = '.' then
      match rest with
      | d :: _ => if d.isDigit then parseExpPart (dropDigits rest) else none
      | [] => none
    else parseExpPart (c :: rest)

def parseNumAfterSign : List Char → Option (List Char)
  | [] => none
  | c :: rest =>
    if c = '0' then parseFracPart rest
    else if c.isDigit then parseFracPart (dropDigits rest)
    else none

mutual

def parseVal : Nat → List Char → Option (List Char)
  | 0, _ => none
  | fuel + 1, l =>
    match skipWsL l with
    | [] => none
    | c :: rest =>
      if c = '\"' then parseStrRest rest
      else if c = obChar then parseObjBody fuel true rest
      else if c = '[' then parseArrBody fuel true rest
      else if c = '-' then parseNumAfterSign rest
      else if c.isDigit then parseNumAfterSign (c :: rest)
      else if c = 't' then
        match rest with
        | 'r' :: 'u' :: 'e' :: r => some r
        | _ => none
      else if c = 'f' then
        match rest with
        | 'a' :: 'l' :: 's' :: 'e' :: r => some r
        | _ => none
      else if c = 'n' then
        match rest with
        | 'u' :: 'l' :: 'l' :: r => some r
        | _ => none
      else none

def parseObjBody : Nat → Bool → List Char → Option (List Char)
  | 0, _, _ => none
  | fuel + 1, first, l =>
    match skipWsL l with
    | [] => none
    | c :: rest =>
      if first && c = cbChar then some rest
      else if c = '\"' then
        match parseStrRest rest with
        | some afterKey =>
          match skipWsL afterKey with
          | c2 :: afterColon =>
            if c2 = ':' then
              match parseVal fuel afterColon with
              | some afterVal =>
                match skipWsL afterVal with
                | c3 :: r3 =>
                  if c3 = ',' then parseObjBody fuel false r3
                  else if c3 = cbChar then some r3
                  else none
                | [] => none
              | none => none
            else none
          | [] => none
        | none => none
      else none

def parseArrBody : Nat → Bool → List Char → Option (List Char)
  | 0, _, _ => none
  | fuel + 1, first, l =>
    match skipWsL l with
    | [] => none
    | c :: rest =>
      if first && c = ']' then some rest
      else
        match parseVal fuel (c :: rest) with
        | some afterVal =>
          match skipWsL afterVal with
          | c2 :: r2 =>
            if c2 = ',' then parseArrBody fuel false r2
            else if c2 = ']' then some r2
            else none
          | [] => none
        | none => none

end

/-- Models `JSON.parse(h)` not throwing: the whole input is one JSON
value surrounded by whitespace. -/
def jsonValid (h : String) : Bool :=
  match parseVal (2 * h.length + 4) h.data with
  | some rest => (skipWsL rest).isEmpty
  | none => false

/-- The mount-time history load effect (index.tsx lines 40-48) over the
raw stored string: result vault together with the console error log.
`decode` abstracts the value `JSON.parse` returns on success. -/
def historyLoad (stored : Option String)
    (decode : String → List SavedResource) : List SavedResource × List String :=
  match stored with
  | none => ([], [])
  | some h =>
    if jsonValid h then (decode h, [])
    else ([], ["Failed to parse history"])

/-! ## Concrete fixtures used by witnesses -/

def sampleState : AppState :=
  { activeCategory := "leadership", selectedTool := strategyToolkit, promptInput := "",
    isGenerating := false, output := "", savedResources := [], apiStatus := .idle,
    hasAccess := false }

def busyState : AppState :=
  { sampleState with isGenerating := true, hasAccess := true, apiStatus := .online }

def envNoKey : GenEnv :=
  { apiKey := none, aistudioAvailable := false, chunks := [], fault := none,
    openKeyFault := none, now := 0 }

def envStream : GenEnv :=
  { apiKey := some "k", aistudioAvailable := true, chunks := ["Hello ", "World"],
    fault := none, openKeyFault := none, now := 1700000000000 }

def sampleEntry : SavedResource :=
  { id := "1700000000000", toolName := "Strategic Roadmap", categoryName := "Executive",
    content := "Hello World", timestamp := 1700000000000 }

def initSys : VaultSys := ⟨[], .absent⟩

/-! ## Claims -/

/-- C9: while a generation attempt is in progress (`isGenerating` set),
a new invocation of `handleGenerate` is a no-op: the state is returned
unchanged, nothing is published, no gate update happens, no request is
issued and no dialog is opened. -/
theorem generate_noop_when_generating (env : GenEnv) (s : AppState)
    (h : s.isGenerating = true) :
    handleGenerate env s =
      { state := s, publishes := [], statusUpdates := [], accessUpdates := [],
        request := none, openedKeyDialog := false, uncaught := none } := by
  simp [handleGenerate, h]

theorem generate_noop_when_generating_w :
    handleGenerate envStream busyState =
      { state := busyState, publishes := [], statusUpdates := [], accessUpdates := [],
        request := none, openedKeyDialog := false, uncaught := none } :=
  generate_noop_when_generating envStream busyState rfl

/-- C2: when the gate is not online (`hasAccess = false`) and no
environment credential exists, `handleGenerate` immediately sets the
fixed Access Denied message as the output, issues no request, performs
no other update and never enters the streaming state. -/
theorem generate_access_denied (env : GenEnv) (s : AppState)
    (h1 : s.isGenerating = false) (h2 : s.hasAccess = false)
    (h3 : envKeyTruthy env = false) :
    handleGenerate env s =
      { state := { s with output := accessDeniedMsg }, publishes := [accessDeniedMsg],
        statusUpdates := [], accessUpdates := [], request := none,
        openedKeyDialog := false, uncaught := none } ∧
    (handleGenerate env s).state.isGenerating = false := by
  have hmain : handleGenerate env s =
      { state := { s with output := accessDeniedMsg }, publishes := [accessDeniedMsg],
        statusUpdates := [], accessUpdates := [], request := none,
        openedKeyDialog := false, uncaught := none } := by
    simp [handleGenerate, h1, h2, h3]
  exact ⟨hmain, by rw [hmain]; exact h1⟩

theorem generate_access_denied_w :
    handleGenerate envNoKey sampleState =
      { state := { sampleState with output := accessDeniedMsg },
        publishes := [accessDeniedMsg], statusUpdates := [], accessUpdates := [],
        request := none, openedKeyDialog := false, uncaught := none } ∧
    (handleGenerate envNoKey sampleState).state.isGenerating = false :=
  generate_access_denied envNoKey sampleState rfl rfl rfl

/-- C10: on every failing attempt — a second invocation while busy, an
entry-guard failure, or a fault during issuance or streaming — the vault
is left exactly as it was; only the natural-completion path (no fault,
guard passed, not busy) mutates it. -/
theorem vault_unchanged_on_failure (env : GenEnv) (s : AppState)
    (h : s.isGenerating = true ∨ (s.hasAccess = false ∧ envKeyTruthy env = false) ∨
      env.fault ≠ none) :
    (handleGenerate env s).state.savedResources = s.savedResources := by
  by_cases hg : s.isGenerating = true
  · simp [handleGenerate, hg]
  · have hg' : s.isGenerating = false := by
      cases hgv : s.isGenerating
      · rfl
      · exact absurd hgv hg
    by_cases hguard : (!s.hasAccess && !envKeyTruthy env) = true
    · simp [handleGenerate, hg', hguard]
    · have hguard' : (!s.hasAccess && !envKeyTruthy env) = false := by
        cases hv : (!s.hasAccess && !envKeyTruthy env)
        · rfl
        · exact absurd hv hguard
      have hf : env.fault ≠ none := by
        rcases h with h | ⟨ha, hk⟩ | h
        · exact absurd h hg
        · exact absurd (by simp [ha, hk]) hguard
        · exact h
      cases hfv : env.fault with
      | none => exact absurd hfv hf
      | some m =>
        simp only [handleGenerate, hg', hguard', hfv, Bool.false_eq_true, if_false]
        split
        · split
          · split
            · rfl
            · rfl
          · rfl
        · rfl

theorem vault_unchanged_on_failure_w :
    (handleGenerate envNoKey sampleState).state.savedResources =
      sampleState.savedResources :=
  vault_unchanged_on_failure envNoKey sampleState (Or.inr (Or.inl ⟨rfl, rfl⟩))

/-- C6: for every tool in the 7-tool catalog, the resolved model
identifier is the fixed pro literal exactly when the tool's tier is pro
and the fixed flash literal exactly when the tier is flash. -/
theorem model_id_matches_tier :
    TOOLS_CONFIG.length = 7 ∧
    ∀ t ∈ TOOLS_CONFIG,
      (modelNameFor t = "gemini-3-pro-preview" ↔ t.modelTier = .pro) ∧
      (modelNameFor t = "gemini-3-flash-preview" ↔ t.modelTier = .flash) := by
  decide

theorem model_id_matches_tier_w :
    (modelNameFor strategyToolkit = "gemini-3-pro-preview" ↔
      strategyToolkit.modelTier = .pro) ∧
    (modelNameFor strategyToolkit = "gemini-3-flash-preview" ↔
      strategyToolkit.modelTier = .flash) :=
  model_id_matches_tier.2 strategyToolkit (by decide)

/-- C8: loading a persisted snapshot that is syntactically invalid JSON
yields the empty vault and a console log entry; the load never raises
(it is a total function). -/
theorem corrupt_history_load (h : String) (decode : String → List SavedResource)
    (hbad : jsonValid h = false) :
    historyLoad (some h) decode = ([], ["Failed to parse history"]) := by
  simp [historyLoad, hbad]

theorem corrupt_history_load_w :
    historyLoad (some "[1, 2") (fun _ => []) = ([], ["Failed to parse history"]) :=
  corrupt_history_load "[1, 2" (fun _ => []) (by decide)

/-- C4: every state reachable from startup — including immediately
after loading a persisted snapshot — has a vault of length at most 15
ordered newest-first; and for any `record` call the resulting length is
`min 15 (priorLength + 1)` with the new entry first. -/
theorem vault_bounded_newest_first :
    (∀ s s', VaultInit s → Relation.ReflTransGen VaultStep s s' →
      s'.vault.length ≤ 15 ∧ newestFirst s'.vault) ∧
    ∀ e v, (record e v).length = min 15 (v.length + 1) ∧
      (record e v).head? = some e := by
  constructor
  · intro s s' hinit hreach
    exact (vaultReach_inv hinit hreach).1
  · intro e v
    exact ⟨record_length e v, record_head e v⟩

theorem vault_bounded_newest_first_w :
    (initSys.vault.length ≤ 15 ∧ newestFirst initSys.vault) ∧
    ((record sampleEntry []).length = min 15 (([] : List SavedResource).length + 1) ∧
      (record sampleEntry []).head? = some sampleEntry) :=
  ⟨vault_bounded_newest_first.1 initSys initSys ⟨rfl, fun _ hl => nomatch hl⟩
      Relation.ReflTransGen.refl,
    vault_bounded_newest_first.2 sampleEntry []⟩

theorem guard_pass_false (env : GenEnv) (s : AppState)
    (h2 : s.hasAccess = true ∨ envKeyTruthy env = true) :
    (!s.hasAccess && !envKeyTruthy env) = false := by
  rcases h2 with h | h <;> simp [h]

def readyState : AppState :=
  { sampleState with hasAccess := true, apiStatus := .online }

def execCategory : Category := ⟨"leadership", "Executive", "fa-building"⟩

/-- C1: on a fault-free attempt with the guard passed, the controller
publishes the cleared output and then, once per increment, the running
accumulator (every prefix, in arrival order); the final output is the
concatenation of all increment texts, and an entry with exactly that
text, the selected tool's name and the active category's name is handed
to the vault's `record` and sits at its head. -/
theorem stream_success (env : GenEnv) (s : AppState) (cat : Category)
    (h1 : s.isGenerating = false)
    (h2 : s.hasAccess = true ∨ envKeyTruthy env = true)
    (h3 : env.fault = none)
    (hcat : TOOL_CATEGORIES.find? (fun c => c.id == s.activeCategory) = some cat) :
    (handleGenerate env s).publishes = "" :: runningOutputs env.chunks ∧
    (runningOutputs env.chunks).length = env.chunks.length ∧
    (handleGenerate env s).state.output = concatAll env.chunks ∧
    (handleGenerate env s).state.savedResources =
      record { id := toString env.now, toolName := s.selectedTool.name,
               categoryName := cat.name, content := concatAll env.chunks,
               timestamp := env.now } s.savedResources ∧
    (handleGenerate env s).state.savedResources.head? =
      some { id := toString env.now, toolName := s.selectedTool.name,
             categoryName := cat.name, content := concatAll env.chunks,
             timestamp := env.now } := by
  have hguard := guard_pass_false env s h2
  refine ⟨?_, runningOutputs_length env.chunks, ?_, ?_, ?_⟩ <;>
    simp [handleGenerate, h1, hguard, h3, hcat, streamLoop_eq, record_head]

theorem stream_success_w :
    (handleGenerate envStream readyState).publishes =
      "" :: runningOutputs envStream.chunks ∧
    (runningOutputs envStream.chunks).length = envStream.chunks.length ∧
    (handleGenerate envStream readyState).state.output = concatAll envStream.chunks ∧
    (handleGenerate envStream readyState).state.savedResources =
      record { id := toString envStream.now, toolName := readyState.selectedTool.name,
               categoryName := execCategory.name, content := concatAll envStream.chunks,
               timestamp := envStream.now } readyState.savedResources ∧
    (handleGenerate envStream readyState).state.savedResources.head? =
      some { id := toString envStream.now, toolName := readyState.selectedTool.name,
             categoryName := execCategory.name, content := concatAll envStream.chunks,
             timestamp := envStream.now } :=
  stream_success envStream readyState execCategory rfl (Or.inl rfl) rfl (by decide)

/-- C3 amended: on any fault during issuance or streaming, provided any
triggered re-authentication flow returns normally (`openSelectKey` does
not reject), the final output is exactly one of the two fixed messages —
the authentication-failed message when the fault text mentions
`API_KEY`, the network-interruption message otherwise — it is the last
value published, and it is identical to what the failed attempt would
show with no partial text accumulated at all (the partial output is
fully replaced). -/
theorem failure_replaces_output (env : GenEnv) (s : AppState) (m : String)
    (h1 : s.isGenerating = false)
    (h2 : s.hasAccess = true ∨ envKeyTruthy env = true)
    (h3 : env.fault = some m)
    (h5 : env.openKeyFault = none) :
    (handleGenerate env s).state.output =
      (if jsIncludes m "API_KEY" then authFailedMsg else networkInterruptionMsg) ∧
    ((handleGenerate env s).state.output = authFailedMsg ∨
      (handleGenerate env s).state.output = networkInterruptionMsg) ∧
    (handleGenerate env s).publishes.getLast? =
      some (handleGenerate env s).state.output ∧
    (handleGenerate env s).state.output =
      (handleGenerate { env with chunks := [] } s).state.output := by
  have hguard := guard_pass_false env s h2
  have hout : ∀ e' : GenEnv, e'.fault = some m → e'.openKeyFault = none →
      (!s.hasAccess && !envKeyTruthy e') = false →
      (handleGenerate e' s).state.output =
        (if jsIncludes m "API_KEY" then authFailedMsg else networkInterruptionMsg) ∧
      (handleGenerate e' s).publishes = ("" :: runningOutputs e'.chunks) ++
        [if jsIncludes m "API_KEY" then authFailedMsg else networkInterruptionMsg] := by
    intro e' hf hk hg
    simp only [handleGenerate, h1, hg, hf, hk, streamLoop_eq, Bool.false_eq_true, if_false]
    split
    · split
      · exact ⟨rfl, rfl⟩
      · exact ⟨rfl, rfl⟩
    · exact ⟨rfl, rfl⟩
  have hguard' : (!s.hasAccess && !envKeyTruthy { env with chunks := [] }) = false := hguard
  have hf' : ({ env with chunks := [] } : GenEnv).fault = some m := h3
  have hk' : ({ env with chunks := [] } : GenEnv).openKeyFault = none := h5
  obtain ⟨ho1, hp1⟩ := hout env h3 h5 hguard
  obtain ⟨ho2, _⟩ := hout { env with chunks := [] } hf' hk' hguard'
  refine ⟨ho1, ?_, ?_, ?_⟩
  · rw [ho1]
    split
    · exact Or.inl rfl
    · exact Or.inr rfl
  · rw [hp1, ho1, List.getLast?_concat]
  · rw [ho1, ho2]

def envFaultAuth : GenEnv :=
  { apiKey := some "k", aistudioAvailable := false, chunks := ["partial "],
    fault := some "boom API_KEY rejected", openKeyFault := none, now := 3 }

theorem failure_replaces_output_w :
    (handleGenerate envFaultAuth readyState).state.output =
      (if jsIncludes "boom API_KEY rejected" "API_KEY" then authFailedMsg
        else networkInterruptionMsg) ∧
    ((handleGenerate envFaultAuth readyState).state.output = authFailedMsg ∨
      (handleGenerate envFaultAuth readyState).state.output = networkInterruptionMsg) ∧
    (handleGenerate envFaultAuth readyState).publishes.getLast? =
      some (handleGenerate envFaultAuth readyState).state.output ∧
    (handleGenerate envFaultAuth readyState).state.output =
      (handleGenerate { envFaultAuth with chunks := [] } readyState).state.output :=
  failure_replaces_output envFaultAuth readyState "boom API_KEY rejected" rfl
    (Or.inl rfl) rfl rfl

def envOpenKeyReject : GenEnv :=
  { apiKey := some "k", aistudioAvailable := true, chunks := ["partial "],
    fault := some "Requested entity was not found",
    openKeyFault := some "selection dialog failed", now := 5 }

/-- C3 counterexample: a mid-stream fault containing "Requested entity
was not found" with `window.aistudio` present whose `openSelectKey()`
call rejects — the rejection escapes the catch block before
`setOutput(msg)` runs, so the last streamed partial `"partial "` remains
the final published output: it is neither fixed failure message, the
partial text is not replaced, and the error propagates uncaught. -/
theorem openkey_rejection_leaks_partial :
    (handleGenerate envOpenKeyReject readyState).state.output = "partial " ∧
    (handleGenerate envOpenKeyReject readyState).publishes.getLast? =
      some "partial " ∧
    "partial " ≠ authFailedMsg ∧
    "partial " ≠ networkInterruptionMsg ∧
    (handleGenerate envOpenKeyReject readyState).uncaught =
      some "selection dialog failed" := by
  refine ⟨rfl, rfl, by decide, by decide, rfl⟩

/-- C7: on a fault whose text contains "Requested entity was not found",
the gate is set to Error; when the interactive capability exists and its
selection flow returns, the key dialog is opened and the gate is
optimistically restored to Online — the status trace is Error then
Online; when the flow itself rejects, or without the capability, the
trace stops at Error. -/
theorem stale_credential_reauth (env : GenEnv) (s : AppState) (m : String)
    (h1 : s.isGenerating = false)
    (h2 : s.hasAccess = true ∨ envKeyTruthy env = true)
    (h3 : env.fault = some m)
    (h4 : jsIncludes m "Requested entity was not found" = true) :
    (env.aistudioAvailable = true → env.openKeyFault = none →
      (handleGenerate env s).statusUpdates = [.error, .online] ∧
      (handleGenerate env s).accessUpdates = [false, true] ∧
      (handleGenerate env s).state.apiStatus = .online ∧
      (handleGenerate env s).state.hasAccess = true ∧
      (handleGenerate env s).openedKeyDialog = true) ∧
    (env.aistudioAvailable = true → ∀ e, env.openKeyFault = some e →
      (handleGenerate env s).statusUpdates = [.error] ∧
      (handleGenerate env s).accessUpdates = [false] ∧
      (handleGenerate env s).state.apiStatus = .error ∧
      (handleGenerate env s).state.hasAccess = false ∧
      (handleGenerate env s).openedKeyDialog = true ∧
      (handleGenerate env s).uncaught = some e) ∧
    (env.aistudioAvailable = false →
      (handleGenerate env s).statusUpdates = [.error] ∧
      (handleGenerate env s).accessUpdates = [false] ∧
      (handleGenerate env s).state.apiStatus = .error ∧
      (handleGenerate env s).state.hasAccess = false) := by
  have hguard := guard_pass_false env s h2
  refine ⟨fun ha hk => ?_, fun ha e hk => ?_, fun ha => ?_⟩
  · simp [handleGenerate, h1, hguard, h3, h4, ha, hk]
  · simp [handleGenerate, h1, hguard, h3, h4, ha, hk]
  · simp [handleGenerate, h1, hguard, h3, h4, ha]

def envFaultStale : GenEnv :=
  { apiKey := some "k", aistudioAvailable := true, chunks := [],
    fault := some "Requested entity was not found", openKeyFault := none, now := 4 }

theorem stale_credential_reauth_w :
    (handleGenerate envFaultStale readyState).statusUpdates = [.error, .online] ∧
    (handleGenerate envFaultStale readyState).accessUpdates = [false, true] ∧
    (handleGenerate envFaultStale readyState).state.apiStatus = .online ∧
    (handleGenerate envFaultStale readyState).state.hasAccess = true ∧
    (handleGenerate envFaultStale readyState).openedKeyDialog = true :=
  (stale_credential_reauth envFaultStale readyState "Requested entity was not found"
    rfl (Or.inl rfl) rfl (by decide)).1 rfl rfl

/-! ## Trim arithmetic for the user-prompt template -/

theorem data_mk (l : List Char) : (String.mk l).data = l := rfl

/-- Trimming the seven-piece template: the head literal `A` starts with
whitespace but contains ink, the tail literal `W` is pure whitespace,
and the base prompt `b` is nonempty and ends in ink, so `trim` strips
exactly the head whitespace and the tail literal and never touches the
interpolated middle. -/
theorem trimSeven (A n L2 m L3 b W : List Char)
    (hA : (A.dropWhile Char.isWhitespace).isEmpty = false)
    (hW : (W.reverse.dropWhile Char.isWhitespace).isEmpty = true)
    (hb : b.reverse.dropWhile Char.isWhitespace = b.reverse)
    (hb2 : b.reverse.isEmpty = false) :
    trimEndL (trimStartL (A ++ (n ++ (L2 ++ (m ++ (L3 ++ (b ++ W))))))) =
      A.dropWhile Char.isWhitespace ++ (n ++ (L2 ++ (m ++ (L3 ++ b)))) := by
  have hWnil : W.reverse.dropWhile Char.isWhitespace = [] :=
    List.isEmpty_iff.mp hW
  simp only [trimStartL, trimEndL, List.dropWhile_append, hA, Bool.false_eq_true,
    if_false, List.reverse_append, List.append_assoc, hWnil, List.isEmpty_nil,
    if_true, hb, hb2, List.nil_append, List.reverse_reverse]

/-- Effect of `.trim()` on the composed user prompt, for any tool whose
base prompt is nonempty and does not end in whitespace: exactly the
leading template whitespace and the trailing template whitespace are
removed, and the context value survives verbatim in the middle. -/
theorem userPrompt_eq (t : ToolConfig) (ctx : String)
    (hb : t.basePrompt.data.reverse.dropWhile Char.isWhitespace =
      t.basePrompt.data.reverse)
    (hb2 : t.basePrompt.data.reverse.isEmpty = false) :
    userPrompt t ctx =
      "**Directive:** Execute the following task using the " ++ t.name ++
        " module.\n        **Context:** " ++ orDefaultCtx ctx ++
        "\n        **Core Task:** " ++ t.basePrompt := by
  apply String.ext
  simp only [userPrompt, jsTrim, data_mk, String.data_append, List.append_assoc]
  rw [trimSeven _ _ _ _ _ _ _ (by decide) (by decide) hb hb2]
  congr 1

/-- C5 amended: the composed instruction substitutes the fixed default
phrase exactly when the user context is the empty string (JavaScript
`||`); any other context — including whitespace-only strings — appears
verbatim between the directive naming the tool and the tool's base
prompt. -/
theorem user_context_interpolation :
    ∀ t ∈ TOOLS_CONFIG, ∀ ctx : String,
      userPrompt t ctx =
        "**Directive:** Execute the following task using the " ++ t.name ++
          " module.\n        **Context:** " ++ orDefaultCtx ctx ++
          "\n        **Core Task:** " ++ t.basePrompt ∧
      (ctx = "" → orDefaultCtx ctx = "Standard operating procedure.") ∧
      (ctx ≠ "" → orDefaultCtx ctx = ctx) := by
  intro t ht ctx
  refine ⟨?_, fun h => by simp [orDefaultCtx, h], fun h => by simp [orDefaultCtx, h]⟩
  fin_cases ht <;> exact userPrompt_eq _ ctx (by decide) (by decide)

theorem user_context_interpolation_w :
    userPrompt strategyToolkit " " =
      "**Directive:** Execute the following task using the " ++
        strategyToolkit.name ++ " module.\n        **Context:** " ++
        orDefaultCtx " " ++ "\n        **Core Task:** " ++
        strategyToolkit.basePrompt ∧
    (" " = "" → orDefaultCtx " " = "Standard operating procedure.") ∧
    (" " ≠ "" → orDefaultCtx " " = " ") :=
  user_context_interpolation strategyToolkit (by decide) " "

/-- C5 counterexample: with the whitespace-only context `" "`, the claim
as stated demands the default phrase, but the composed instruction does
not contain it — the single space is kept verbatim after the Context
label instead. -/
theorem whitespace_ctx_not_defaulted :
    jsIncludes (userPrompt strategyToolkit " ") "Standard operating procedure." = false ∧
    jsIncludes (userPrompt strategyToolkit " ") "**Context:**  \n" = true := by
  decide

end Wisian
